import Mathlib

/-!
Verification of the Alx_DjangoLearnLab repository against its specification.

The development shallowly embeds the pieces of repository code that the
claims concern:

* `api/filters.py` — the custom filter methods of `BookFilter`
  (`filter_by_decade`, `filter_recent_books`, `filter_search`);
* `api/serializers.py` — `BookSerializer.validate_publication_year`;
* `api/views.py` — the legacy numeric-parameter handling in
  `BookListView.get_queryset`;
* `posts/views.py` of the social-media app — `like_post` and `unlike_post`.

Django querysets over `Book` rows are embedded as `List Book`; filtering a
queryset is `List.filter`.  Years are `Int` (Python integers).  The current
year, which the Python code reads from `datetime.now()`, is an explicit
parameter of every definition that uses it.  A raised
`serializers.ValidationError` (which the framework turns into a 400-class
response) is embedded as `Except.error`.
-/

namespace AlxDjango

/-- Model of Python's `int(s)` digit accumulation: consumes decimal digits,
returning `none` on the first non-digit character or on an empty digit
string. -/
def digitsVal : List Char → Nat → Option Nat
  | [], acc => some acc
  | c :: rest, acc =>
      if c.isDigit then digitsVal rest (acc * 10 + (c.toNat - 48)) else none

/-- Model of Python's `int(s)` conversion on a character list: an optional
sign followed by one or more decimal digits; anything else raises
`ValueError`, embedded as `none`.  (Python additionally strips surrounding
whitespace and allows underscores; those inputs do not occur in the claims
and are modelled as failures.) -/
def pyInt : List Char → Option Int
  | [] => none
  | c :: rest =>
      if c = '-' then
        match rest with
        | [] => none
        | _ => (digitsVal rest 0).map fun n => -(n : Int)
      else if c = '+' then
        match rest with
        | [] => none
        | _ => (digitsVal rest 0).map fun n => (n : Int)
      else (digitsVal (c :: rest) 0).map fun n => (n : Int)

/-- A `Book` row (`api/models.py`): `title`, `publication_year`, and the
referenced author, represented by the author's `name` field (the filters
only ever consult `author__name`). -/
structure Book where
  id : Nat
  title : String
  publication_year : Int
  author_name : String
deriving DecidableEq, Repr

/-- `BookFilter.filter_by_decade` (`api/filters.py`).  `if not value:
return queryset` is the empty-string guard; otherwise Python computes
`int(value[:4])` (embedded via `pyInt` on the first four characters, with
`none` for the raised `ValueError`) and filters the queryset to
`publication_year` between `decade_start` and `decade_start + 9`
inclusive. -/
def filter_by_decade (queryset : List Book) (value : String) :
    Option (List Book) :=
  if value = "" then some queryset
  else
    match pyInt (value.toList.take 4) with
    | none => none
    | some decade_start =>
        some (queryset.filter fun b =>
          decide (decade_start ≤ b.publication_year ∧
            b.publication_year ≤ decade_start + 9))

/-- `BookFilter.filter_recent_books` (`api/filters.py`).  `value is None`
returns the queryset unchanged; `True` keeps books with
`publication_year >= current_year - 10`; `False` keeps books with
`publication_year < current_year - 10`.  `current_year` stands for
`datetime.now().year`. -/
def filter_recent_books (queryset : List Book) (value : Option Bool)
    (current_year : Int) : List Book :=
  match value with
  | none => queryset
  | some true =>
      queryset.filter fun b => decide (current_year - 10 ≤ b.publication_year)
  | some false =>
      queryset.filter fun b => decide (b.publication_year < current_year - 10)

/-- `needle.isPrefixOf`-style check used by `containsSub`: does `hay` start
with `needle`? -/
def beginsWith : List Char → List Char → Bool
  | _, [] => true
  | [], _ :: _ => false
  | c :: cs, d :: ds => c == d && beginsWith cs ds

/-- Substring occurrence on character lists. -/
def containsSub (hay needle : List Char) : Bool :=
  match hay with
  | [] => beginsWith [] needle
  | c :: rest => beginsWith (c :: rest) needle || containsSub rest needle

/-- Django's `icontains` lookup: case-insensitive substring match. -/
def icontains (hay needle : String) : Bool :=
  containsSub (hay.toList.map Char.toLower) (needle.toList.map Char.toLower)

/-- `BookFilter.filter_search` (`api/filters.py`): `if not value: return
queryset`, else keep books whose title or author name `icontains` the
search term (the `Q(...) | Q(...)` disjunction). -/
def filter_search (queryset : List Book) (value : String) : List Book :=
  if value = "" then queryset
  else queryset.filter fun b =>
    icontains b.title value || icontains b.author_name value

/-- `BookSerializer.validate_publication_year` (`api/serializers.py`):
raise `ValidationError` (a 400-class response) when `value >
current_year`, otherwise return the value unchanged. -/
def validate_publication_year (current_year value : Int) :
    Except String Int :=
  if value > current_year then
    Except.error ("Publication year cannot be in the future. Current year is "
      ++ toString current_year ++ ".")
  else Except.ok value

/-- The two legacy numeric query parameters consulted by
`BookListView.get_queryset` (`api/views.py`); `none` is an absent
parameter. -/
structure LegacyParams where
  year_from : Option String
  year_to : Option String

/-- The legacy-parameter portion of `BookListView.get_queryset`
(`api/views.py`): each of `year_from` / `year_to` is converted with
`int(...)` inside `try/except: pass`, so a malformed value applies no
predicate; a well-formed value applies `publication_year__gte` /
`publication_year__lte` respectively. -/
def get_queryset (books : List Book) (params : LegacyParams) : List Book :=
  let q1 :=
    match params.year_from with
    | none => books
    | some s =>
        match pyInt s.toList with
        | some y => books.filter fun b => decide (y ≤ b.publication_year)
        | none => books
  match params.year_to with
  | none => q1
  | some s =>
      match pyInt s.toList with
      | some y => q1.filter fun b => decide (b.publication_year ≤ y)
      | none => q1

/-- A `Like` row: the `(user, post)` join record (`posts/models.py` /
`posts/views.py`); users and posts are identified by primary key. -/
structure LikeRec where
  user : Nat
  post : Nat
deriving DecidableEq, Repr

/-- A `Notification` row (`notifications/models.py`, as used by
`like_post`): recipient, actor, verb, and the generic target's object id
(the post's pk). -/
structure NotifRec where
  recipient : Nat
  actor : Nat
  verb : String
  object_id : Nat
deriving DecidableEq, Repr

/-- A `Post` row, reduced to the fields `like_post`/`unlike_post` consult:
primary key and author id. -/
structure PostRec where
  id : Nat
  author : Nat
deriving DecidableEq, Repr

/-- The relational store as the social-media views see it: the `Like` table
and the `Notification` table. -/
structure SMState where
  likes : List LikeRec
  notifs : List NotifRec
deriving DecidableEq, Repr

/-- An HTTP response: numeric status code and the serialized body. -/
structure HttpResponse where
  status : Nat
  body : String
deriving DecidableEq, Repr

/-- Does a `Like` by user `u` on post `p` exist in the table? -/
def hasLike (likes : List LikeRec) (u p : Nat) : Bool :=
  likes.any fun l => l.user == u && l.post == p

/-- `Like.objects.get_or_create(user=user, post=post)`: return the table
unchanged with `created = False` when the row exists, otherwise insert the
row and report `created = True`. -/
def get_or_create_like (likes : List LikeRec) (u p : Nat) :
    List LikeRec × Bool :=
  if hasLike likes u p then (likes, false)
  else (likes ++ [⟨u, p⟩], true)

/-- `like_post` (`posts/views.py`): `get_or_create` the like; when it was
newly created and the post's author is not the acting user, insert one
notification for the author; in every case respond `200 {'status': 'post
liked'}`. -/
def like_post (st : SMState) (user : Nat) (post : PostRec) :
    SMState × HttpResponse :=
  let gc := get_or_create_like st.likes user post.id
  let notifs' :=
    if gc.2 && post.author != user then
      st.notifs ++ [⟨post.author, user, "liked your post", post.id⟩]
    else st.notifs
  (⟨gc.1, notifs'⟩, ⟨200, "post liked"⟩)

/-- `unlike_post` (`posts/views.py`):
`Like.objects.filter(user=user, post=post).delete()` removes every matching
row and touches nothing else; respond `200 {'status': 'post unliked'}`. -/
def unlike_post (st : SMState) (user : Nat) (post : PostRec) :
    SMState × HttpResponse :=
  (⟨st.likes.filter fun l => !(l.user == user && l.post == post.id),
    st.notifs⟩,
   ⟨200, "post unliked"⟩)

/-! ### Theorems for the claims -/

/-- C1: the claim says a second like attempt by the same user on the same
post is rejected with a 400-class error response without creating a second
Like record.  The code keeps the at-most-one-record part (via
`get_or_create`) but answers a duplicate attempt with HTTP 200, not a
400-class status — contradicting the repository's own
`test_cannot_like_twice`, which asserts `HTTP_400_BAD_REQUEST`.  Evaluated
at the failing input: user 1 likes post 7 (authored by user 2) while
`Like(user=1, post=7)` already exists. -/
theorem C1_duplicate_like_responds_200 :
    (like_post ⟨[⟨1, 7⟩], []⟩ 1 ⟨7, 2⟩).2.status = 200 ∧
    ¬ (400 ≤ (like_post ⟨[⟨1, 7⟩], []⟩ 1 ⟨7, 2⟩).2.status ∧
        (like_post ⟨[⟨1, 7⟩], []⟩ 1 ⟨7, 2⟩).2.status ≤ 499) ∧
    (like_post ⟨[⟨1, 7⟩], []⟩ 1 ⟨7, 2⟩).1.likes = [⟨1, 7⟩] := by
  decide

/-- C2: a first-time like by a non-author appends exactly one notification
for the post's author; a self-like appends none; a duplicate like attempt
appends none. -/
theorem C2_like_notification_cases (st : SMState) (u : Nat) (p : PostRec) :
    (hasLike st.likes u p.id = false → p.author ≠ u →
      (like_post st u p).1.notifs
        = st.notifs ++ [⟨p.author, u, "liked your post", p.id⟩]) ∧
    (p.author = u → (like_post st u p).1.notifs = st.notifs) ∧
    (hasLike st.likes u p.id = true →
      (like_post st u p).1.notifs = st.notifs) := by
  refine ⟨?_, ?_, ?_⟩
  · intro h hne
    simp [like_post, get_or_create_like, h, bne_iff_ne, hne]
  · intro h
    by_cases hl : hasLike st.likes u p.id <;>
      simp [like_post, get_or_create_like, hl, h]
  · intro h
    simp [like_post, get_or_create_like, h]

/-- Witness for C2: user 1 likes post 7 authored by user 2 on an empty
store; exactly the one notification for user 2 is created. -/
theorem C2_like_notification_cases_witness :
    (like_post ⟨[], []⟩ 1 ⟨7, 2⟩).1.notifs
      = [] ++ [⟨2, 1, "liked your post", 7⟩] :=
  (C2_like_notification_cases ⟨[], []⟩ 1 ⟨7, 2⟩).1 (by decide) (by decide)

/-- C3: `validate_publication_year` raises a validation error exactly when
the submitted year strictly exceeds the current year; otherwise it returns
the year unchanged. -/
theorem C3_validate_publication_year_iff (Y v : Int) :
    ((∃ msg, validate_publication_year Y v = Except.error msg) ↔ Y < v) ∧
    (v ≤ Y → validate_publication_year Y v = Except.ok v) := by
  unfold validate_publication_year
  by_cases h : v > Y
  · rw [if_pos h]
    exact ⟨⟨fun _ => h, fun _ => ⟨_, rfl⟩⟩,
      fun hle => absurd h (not_lt.mpr hle)⟩
  · rw [if_neg h]
    refine ⟨⟨?_, fun hlt => absurd hlt h⟩, fun _ => rfl⟩
    rintro ⟨msg, hmsg⟩
    exact Except.noConfusion hmsg

/-- Witness for C3: year 2020 with current year 2025 is accepted and
returned unchanged. -/
theorem C3_validate_publication_year_iff_witness :
    validate_publication_year 2025 2020 = Except.ok 2020 :=
  (C3_validate_publication_year_iff 2025 2020).2 (by decide)

/-- C4: for a non-empty decade value whose first four characters parse to
`d`, the decade filter returns exactly the books with
`publication_year ∈ [d, d + 9]`: membership in the output is equivalent to
membership in the input together with the year bound. -/
theorem C4_decade_range_exact (books : List Book) (value : String) (d : Int)
    (out : List Book) (hv : value ≠ "")
    (hd : pyInt (value.toList.take 4) = some d)
    (hout : filter_by_decade books value = some out) (b : Book) :
    b ∈ out ↔
      b ∈ books ∧ d ≤ b.publication_year ∧ b.publication_year ≤ d + 9 := by
  unfold filter_by_decade at hout
  rw [if_neg hv, hd] at hout
  injection hout with h
  subst h
  simp [List.mem_filter]

/-- Witness for C4: filtering `[1995-book, 2003-book]` by `"1990s"` keeps
the 1995 book, whose year lies in `[1990, 1999]`. -/
theorem C4_decade_range_exact_witness :
    (⟨1, "T", 1995, "A"⟩ : Book) ∈ [(⟨1, "T", 1995, "A"⟩ : Book)] :=
  (C4_decade_range_exact [⟨1, "T", 1995, "A"⟩, ⟨2, "U", 2003, "B"⟩] "1990s"
      1990 [⟨1, "T", 1995, "A"⟩] (by decide) (by decide) (by decide)
      ⟨1, "T", 1995, "A"⟩).mpr (by decide)

/-- C5 counterexample: with current year 2026, a stored book dated 2031 is
returned by the recent-publication filter with value true, yet its year
does not lie in a 10-year window ending at the current year — the filter
only bounds the year from below (`publication_year ≥ Y − 10`), so the
claim's "window ending at Y" description is false. -/
theorem C5_recent_true_counterexample :
    (⟨1, "F", 2031, "A"⟩ : Book) ∈
        filter_recent_books [⟨1, "F", 2031, "A"⟩] (some true) 2026 ∧
    ¬ ((2026 : Int) - 10 ≤ (⟨1, "F", 2031, "A"⟩ : Book).publication_year ∧
        (⟨1, "F", 2031, "A"⟩ : Book).publication_year ≤ 2026) := by
  decide

/-- C5 amended: the recent-publication filter with value true returns
exactly the books with `publication_year ≥ Y − 10`; there is no upper
bound, so future-dated books are also returned. -/
theorem C5_recent_true_lower_bound_only (books : List Book) (Y : Int)
    (b : Book) :
    b ∈ filter_recent_books books (some true) Y ↔
      b ∈ books ∧ Y - 10 ≤ b.publication_year := by
  simp [filter_recent_books, List.mem_filter]

/-- C6: malformed (non-integer) values for the numeric `year_from` /
`year_to` parameters are silently ignored: no predicate is applied, the
listing completes normally with the collection unchanged, and no error is
produced (`get_queryset` is total). -/
theorem C6_malformed_numeric_ignored (books : List Book) (s t : String)
    (hs : pyInt s.toList = none) (ht : pyInt t.toList = none) :
    get_queryset books ⟨some s, some t⟩ = books := by
  have hs' : pyInt s.data = none := hs
  have ht' : pyInt t.data = none := ht
  simp [get_queryset, hs', ht']

/-- Witness for C6: the non-integer values "abc" and "12x3" leave the
collection unfiltered. -/
theorem C6_malformed_numeric_ignored_witness :
    get_queryset [⟨1, "T", 1995, "A"⟩] ⟨some "abc", some "12x3"⟩
      = [⟨1, "T", 1995, "A"⟩] :=
  C6_malformed_numeric_ignored [⟨1, "T", 1995, "A"⟩] "abc" "12x3"
    (by decide) (by decide)

/-- C7: after `unlike_post`, no Like by the acting user on the post
remains, and the notification table is exactly what it was before — no
notification is retracted. -/
theorem C7_unlike_removes_like_keeps_notifs (st : SMState) (u : Nat)
    (p : PostRec) :
    hasLike (unlike_post st u p).1.likes u p.id = false ∧
    (unlike_post st u p).1.notifs = st.notifs := by
  refine ⟨?_, rfl⟩
  rw [Bool.eq_false_iff]
  intro hcontra
  rw [hasLike, List.any_eq_true] at hcontra
  obtain ⟨l, hl, hpred⟩ := hcontra
  rw [unlike_post] at hl
  simp only [List.mem_filter] at hl
  rw [hpred] at hl
  exact Bool.noConfusion hl.2

/-- C8: an empty or missing value leaves the collection unfiltered for each
custom predicate: empty decade string, absent recent-publication value, and
empty search term are all identities. -/
theorem C8_empty_value_identity (books : List Book) (Y : Int) :
    filter_by_decade books "" = some books ∧
    filter_recent_books books none Y = books ∧
    filter_search books "" = books := by
  refine ⟨?_, rfl, ?_⟩ <;> simp [filter_by_decade, filter_search]

/-- C9: each custom filter method returns a sub-collection of its input —
the output is a sublist of the input (no record added, reordered, or
mutated), and the methods are pure (they return a value and leave every
other component of the state untouched by construction). -/
theorem C9_filters_are_sublists (books out : List Book) (v : String)
    (bv : Option Bool) (Y : Int)
    (hout : filter_by_decade books v = some out) :
    out.Sublist books ∧
    (filter_recent_books books bv Y).Sublist books ∧
    (filter_search books v).Sublist books := by
  refine ⟨?_, ?_, ?_⟩
  · unfold filter_by_decade at hout
    by_cases hv : v = ""
    · rw [if_pos hv] at hout
      injection hout with h
      subst h
      exact List.Sublist.refl _
    · rw [if_neg hv] at hout
      cases hp : pyInt (v.toList.take 4) with
      | none => rw [hp] at hout; exact Option.noConfusion hout
      | some d =>
          rw [hp] at hout
          injection hout with h
          subst h
          exact List.filter_sublist _
  · cases bv with
    | none => exact List.Sublist.refl _
    | some b => cases b <;> exact List.filter_sublist _
  · unfold filter_search
    by_cases hv : v = ""
    · rw [if_pos hv]
    · rw [if_neg hv]; exact List.filter_sublist _

/-- Witness for C9: concrete two-book collection, decade "1990s", recency
true at year 2026, search term "1990s". -/
theorem C9_filters_are_sublists_witness :
    ([(⟨1, "T", 1995, "A"⟩ : Book)]).Sublist
        [⟨1, "T", 1995, "A"⟩, ⟨2, "U", 2003, "B"⟩] ∧
    (filter_recent_books [⟨1, "T", 1995, "A"⟩, ⟨2, "U", 2003, "B"⟩]
        (some true) 2026).Sublist
        [⟨1, "T", 1995, "A"⟩, ⟨2, "U", 2003, "B"⟩] ∧
    (filter_search [⟨1, "T", 1995, "A"⟩, ⟨2, "U", 2003, "B"⟩]
        "1990s").Sublist [⟨1, "T", 1995, "A"⟩, ⟨2, "U", 2003, "B"⟩] :=
  C9_filters_are_sublists [⟨1, "T", 1995, "A"⟩, ⟨2, "U", 2003, "B"⟩]
    [⟨1, "T", 1995, "A"⟩] "1990s" (some true) 2026 (by decide)

/-- C10: the recent-publication filter with value false returns exactly the
books with `publication_year < Y − 10`, and on any collection the true and
false branches partition it: each book of the collection belongs to exactly
one of the two results. -/
theorem C10_recent_false_partition (books : List Book) (Y : Int) :
    (∀ b : Book, b ∈ filter_recent_books books (some false) Y ↔
        b ∈ books ∧ b.publication_year < Y - 10) ∧
    ∀ b ∈ books,
      (b ∈ filter_recent_books books (some true) Y ↔
        b ∉ filter_recent_books books (some false) Y) := by
  constructor
  · intro b
    simp [filter_recent_books, List.mem_filter]
  · intro b hb
    simp [filter_recent_books, List.mem_filter, hb]

/-- Witness for C10: a 1995 book at current year 2026 falls in exactly one
branch (the false branch, being older than 2016). -/
theorem C10_recent_false_partition_witness :
    (⟨1, "T", 1995, "A"⟩ : Book) ∈
        filter_recent_books [⟨1, "T", 1995, "A"⟩] (some true) 2026 ↔
      (⟨1, "T", 1995, "A"⟩ : Book) ∉
        filter_recent_books [⟨1, "T", 1995, "A"⟩] (some false) 2026 :=
  (C10_recent_false_partition [⟨1, "T", 1995, "A"⟩] 2026).2
    ⟨1, "T", 1995, "A"⟩ (by decide)

end AlxDjango
